import Mathlib

/-!
Verification of the client-side audio playback engine of the Scene
performance-manager repository.

Times are modelled as exact rationals (seconds / milliseconds).  The pure
scheduling helpers (`calculateFadeOutDelay`, `getEffectiveCurrentTime`,
`verifyAndCorrect`, `simulatePlayWithOffset`) are embedded from the
AudioPlayer unit-test file, where they are defined as plain functions.
The engine state machine is embedded from the `AudioPlayer` class
(play/pause/stop/getCurrentTime/getDuration); the cutoff (`endTimeSeconds`)
bookkeeping of the current engine is not present in the copy of the class
available here and is modelled from the spec where noted.  The coordinator
is embedded from `PerformanceList.handlePlayStateChange` and the
remaining-time aggregate from `app.js` `updateEndTimeBadge`.
-/

namespace Scene

/-- fadeInDuration constant of the AudioPlayer (seconds). -/
def fadeInDuration : ℚ := 1

/-- fadeOutDuration constant of the AudioPlayer (seconds). -/
def fadeOutDuration : ℚ := 1/2

/-- calculateFadeOutDelay from the AudioPlayer unit tests: delay in ms before
triggering the fade out; `none` when scheduling should not occur. -/
def calculateFadeOutDelay (currentTime endTimeSeconds startOffset : ℚ) : Option ℚ :=
  if endTimeSeconds ≤ 0 then
    none
  else if endTimeSeconds ≤ startOffset then
    none
  else
    let fadeOutStartTime := endTimeSeconds - fadeOutDuration
    let delayMs := (fadeOutStartTime - currentTime) * 1000
    if delayMs ≤ 0 then some 0 else some delayMs

/-- getEffectiveCurrentTime from the AudioPlayer unit tests: the corrected
current-time logic that accounts for the start offset while playing. -/
def getEffectiveCurrentTime (audioCurrentTime startOffset : ℚ) (isPlaying : Bool) : ℚ :=
  if isPlaying = true ∧ audioCurrentTime < startOffset then startOffset
  else audioCurrentTime

/-- Verdict of the post-play seek verification. -/
inductive SeekVerdict where
  | reseek
  | ok
deriving DecidableEq

/-- verifyAndCorrect from the AudioPlayer unit tests: reseek when the achieved
position is more than 0.5 s below the requested offset. -/
def verifyAndCorrect (actualTime expectedOffset : ℚ) : SeekVerdict :=
  if actualTime < expectedOffset - 1/2 then SeekVerdict.reseek else SeekVerdict.ok

/-- Operations on a media element that the seek-ordering test records. -/
inductive PlayOp where
  | setCurrentTime
  | play
  | verifyPosition
  | fadeIn
deriving DecidableEq

/-- simulatePlayWithOffset from the AudioPlayer unit tests: the order of
operations a fresh play performs; seeking happens before play and the
position is verified after play, both only when the offset is positive. -/
def simulatePlayWithOffset (offset : ℚ) : List PlayOp :=
  (if 0 < offset then [PlayOp.setCurrentTime] else []) ++
    [PlayOp.play] ++
    (if 0 < offset then [PlayOp.verifyPosition] else []) ++
    [PlayOp.fadeIn]

/-- JSNum models a JavaScript number that may be NaN (as the media element's
`duration` is while metadata has not loaded). -/
inductive JSNum where
  | nan
  | num (q : ℚ)
deriving DecidableEq

/-- JSNum.orZero models the JavaScript expression `x || 0`: NaN and 0 are
falsy, so both give 0. -/
def JSNum.orZero : JSNum → ℚ
  | JSNum.nan => 0
  | JSNum.num q => q

/-- MediaElement models the underlying HTML audio element: its clock and its
(possibly not yet known) duration. -/
structure MediaElement where
  currentTime : ℚ
  duration : JSNum
deriving DecidableEq

/-- PlayError models the spec's PlaybackError; the embedded operations return
`some playbackError` exactly where the source raises one. -/
inductive PlayError where
  | playbackError
deriving DecidableEq

/-- Observable side effect of an engine operation that the claims track. -/
inductive Effect where
  | cancelTimer
deriving DecidableEq

/-- State of the AudioPlayer class.  `audioElement`, `isPlaying`, `isPaused`,
`startOffset` and the gain value are the fields of the class in part_006
(`gain` records the target value of the last gain instruction).
`endTimeSeconds` and `fadeOutTimer` are modelled from the spec: the cutoff
association and the pending fade-out timer handle kept by the current
engine, whose file is not in the repository snapshot; their bookkeeping
follows the spec and the AudioPlayer unit tests. -/
structure AudioPlayerState where
  audioElement : Option MediaElement
  isPlaying : Bool
  isPaused : Bool
  startOffset : ℚ
  gain : ℚ
  endTimeSeconds : ℚ
  fadeOutTimer : Option ℚ
deriving DecidableEq

/-- Engine state with no media element attached (before any load, or after
destroy): the `Idle`/destroyed situation of the spec. -/
def idleState : AudioPlayerState :=
  { audioElement := none, isPlaying := false, isPaused := false,
    startOffset := 0, gain := 1, endTimeSeconds := 0, fadeOutTimer := none }

/-- getCurrentTime of the AudioPlayer: 0 with no element, else the element's
clock. -/
def getCurrentTime (s : AudioPlayerState) : ℚ :=
  match s.audioElement with
  | none => 0
  | some elem => elem.currentTime

/-- getDuration of the AudioPlayer: 0 with no element, else
`audioElement.duration || 0`. -/
def getDuration (s : AudioPlayerState) : ℚ :=
  match s.audioElement with
  | none => 0
  | some elem => elem.duration.orZero

/-- Cancellation of the pending fade-out timer (modelled from the spec's
timer-cleanup rule and the unit tests): clearing fires a cancel effect only
when a timer is actually pending. -/
def cancelFadeTimer (s : AudioPlayerState) : AudioPlayerState × List Effect :=
  match s.fadeOutTimer with
  | none => (s, [])
  | some _ => ({ s with fadeOutTimer := none }, [Effect.cancelTimer])

/-- play of the AudioPlayer (part_006): with no element it returns silently;
resuming from pause restarts the element and fades the gain back toward 1;
a fresh start seeks to the offset (when positive), starts playback and fades
in.  The second component records a raised PlaybackError; the source never
raises one. -/
def play (s : AudioPlayerState) (offsetSeconds : ℚ) : AudioPlayerState × Option PlayError :=
  match s.audioElement with
  | none => (s, none)
  | some elem =>
    if s.isPaused then
      ({ s with isPaused := false, isPlaying := true, gain := 1 }, none)
    else
      let elem2 := if 0 < offsetSeconds then { elem with currentTime := offsetSeconds } else elem
      ({ s with audioElement := some elem2, startOffset := offsetSeconds,
                isPlaying := true, gain := 1 }, none)

/-- pause of the AudioPlayer: a no-op unless playing with an element; else
fades the gain to 0, pauses the element (the clock freezes), cancels any
pending fade-out timer and becomes paused. -/
def pause (s : AudioPlayerState) : AudioPlayerState × List Effect :=
  match s.audioElement with
  | none => (s, [])
  | some _ =>
    if s.isPlaying = false then (s, [])
    else
      let (s1, eff) := cancelFadeTimer s
      ({ s1 with isPlaying := false, isPaused := true, gain := 0 }, eff)

/-- stop of the AudioPlayer: a no-op with no element; else (after the
non-immediate fade-out ramp when playing) pauses the element, resets its
clock to 0, clears the playing/paused flags and resets the gain to 1.
Clearing the cutoff and cancelling the pending timer are modelled from the
spec and the unit tests (they belong to the current engine's cutoff
bookkeeping). -/
def stop (s : AudioPlayerState) (immediate : Bool) : AudioPlayerState × List Effect :=
  match s.audioElement with
  | none => (s, [])
  | some elem =>
    let (s1, eff) := cancelFadeTimer s
    ({ s1 with audioElement := some { elem with currentTime := 0 },
               isPlaying := false, isPaused := false,
               gain := 1, endTimeSeconds := 0 }, eff)

/-- A state is Stopped when an element is attached, neither flag is set, the
clock is at 0, the gain is reset to 1, the cutoff is cleared and no timer is
pending: exactly the state a completed stop() leaves behind. -/
def isStoppedState (s : AudioPlayerState) : Prop :=
  s.isPlaying = false ∧ s.isPaused = false ∧ s.gain = 1 ∧
  s.endTimeSeconds = 0 ∧ s.fadeOutTimer = none ∧
  Option.map MediaElement.currentTime s.audioElement = some 0

instance (s : AudioPlayerState) : Decidable (isStoppedState s) := by
  unfold isStoppedState
  infer_instance

/-- A state is Paused when an element is attached, the paused flag is set and
the playing flag is not. -/
def isPausedState (s : AudioPlayerState) : Prop :=
  s.isPaused = true ∧ s.isPlaying = false ∧ s.audioElement.isSome = true

instance (s : AudioPlayerState) : Decidable (isPausedState s) := by
  unfold isPausedState
  infer_instance

/-- Positions (seconds on the media clock) at which a scheduled fade-out
begins its gain ramp 1 to 0 and at which playback stops; the schedule
`fadeStartSeconds = stopSeconds = current position` encodes an immediate
stop with no further audio. -/
structure FadeSchedule where
  fadeStartSeconds : ℚ
  stopSeconds : ℚ
deriving DecidableEq

/-- Modelled from the spec: the fade-out scheduling step of the current
engine's play(), whose file is missing from the repository snapshot (only
its unit tests and callers are present).  It feeds the current position, the
cutoff and the offset to `calculateFadeOutDelay` (embedded from those unit
tests); no valid cutoff schedules nothing, a non-positive delay stops
immediately, and a positive delay schedules the ramp to begin after the
delay and playback to stop `fadeOutDuration` later. -/
def scheduleFadeOut (currentTime endTimeSeconds startOffset : ℚ) : Option FadeSchedule :=
  match calculateFadeOutDelay currentTime endTimeSeconds startOffset with
  | none => none
  | some delayMs =>
    if delayMs ≤ 0 then some ⟨currentTime, currentTime⟩
    else some ⟨currentTime + delayMs / 1000, currentTime + delayMs / 1000 + fadeOutDuration⟩

/-- Modelled from the spec: a fresh play(startOffsetSeconds, endTimeSeconds)
of the current engine.  It seeks to the offset, records the cutoff, starts
playing, and schedules the fade-out per `scheduleFadeOut` evaluated at the
just-seeked position; the pending timer handle holds the scheduled ramp
start. -/
def playWithCutoff (s : AudioPlayerState) (offsetSeconds endTimeSeconds : ℚ) :
    AudioPlayerState × Option FadeSchedule :=
  match s.audioElement with
  | none => (s, none)
  | some elem =>
    let sched := scheduleFadeOut offsetSeconds endTimeSeconds offsetSeconds
    ({ s with audioElement := some { elem with currentTime := offsetSeconds },
              startOffset := offsetSeconds, endTimeSeconds := endTimeSeconds,
              isPlaying := true, isPaused := false, gain := 1,
              fadeOutTimer := Option.map FadeSchedule.fadeStartSeconds sched },
     sched)

/-- Sample loaded, playing state used by the concrete instances. -/
def samplePlayingState : AudioPlayerState :=
  { audioElement := some { currentTime := 12, duration := JSNum.num 120 },
    isPlaying := true, isPaused := false, startOffset := 10, gain := 1,
    endTimeSeconds := 20, fadeOutTimer := some (39/2) }

/-- Sample paused state. -/
def samplePausedState : AudioPlayerState :=
  { audioElement := some { currentTime := 15, duration := JSNum.num 120 },
    isPlaying := false, isPaused := true, startOffset := 10, gain := 0,
    endTimeSeconds := 20, fadeOutTimer := none }

/-- Sample stopped (loaded, ready) state. -/
def sampleStoppedState : AudioPlayerState :=
  { audioElement := some { currentTime := 0, duration := JSNum.num 120 },
    isPlaying := false, isPaused := false, startOffset := 10, gain := 1,
    endTimeSeconds := 0, fadeOutTimer := none }

/-- State of the PerformanceList coordinator over `n` cards: each card's
engine playing flag and the currently playing id. -/
structure ListState (n : ℕ) where
  playing : Fin n → Bool
  currentlyPlayingId : Option (Fin n)

/-- Playback notifications and actions a card can produce: handlePlay ends
with onPlayStateChange(id, true); handleStop stops the card's engine and
ends with onPlayStateChange(id, false); handlePause pauses the card's
engine without notifying the list. -/
inductive PlayEvent (n : ℕ) where
  | playStarted (id : Fin n)
  | playStopped (id : Fin n)
  | paused (id : Fin n)

/-- handlePlayStateChange of PerformanceList, together with the card-side
flag changes that precede the notification: on (id, true) the notifying
card's engine is playing and stopPlayback() halts every other card before
the id is recorded; on (id, false) the notifying card's engine has stopped
and the active id is cleared only when it equals the notifying id.  A
pause changes only the card's own engine flag. -/
def handlePlayStateChange {n : ℕ} (s : ListState n) : PlayEvent n → ListState n
  | PlayEvent.playStarted id =>
    { playing := fun j => decide (j = id), currentlyPlayingId := some id }
  | PlayEvent.playStopped id =>
    { playing := Function.update s.playing id false,
      currentlyPlayingId :=
        if s.currentlyPlayingId = some id then none else s.currentlyPlayingId }
  | PlayEvent.paused id =>
    { playing := Function.update s.playing id false,
      currentlyPlayingId := s.currentlyPlayingId }

/-- Coordinator state after a list of notifications. -/
def runEvents {n : ℕ} (s : ListState n) : List (PlayEvent n) → ListState n
  | [] => s
  | e :: es => runEvents (handlePlayStateChange s e) es

/-- Initial coordinator state: no card playing, no active id. -/
def initListState (n : ℕ) : ListState n :=
  { playing := fun _ => false, currentlyPlayingId := none }

/-- At most one card's engine reports playing. -/
def atMostOnePlaying {n : ℕ} (s : ListState n) : Prop :=
  ∀ i j : Fin n, s.playing i = true → s.playing j = true → i = j

instance {n : ℕ} (s : ListState n) : Decidable (atMostOnePlaying s) := by
  unfold atMostOnePlaying
  infer_instance

/-- Minutes-and-seconds pair of a track record. -/
structure TimePair where
  minutes : ℚ
  seconds : ℚ
deriving DecidableEq

/-- Total seconds of an optional minutes/seconds pair, as app.js computes
`(x?.minutes || 0) * 60 + (x?.seconds || 0)`. -/
def timePairSeconds : Option TimePair → ℚ
  | none => 0
  | some tp => tp.minutes * 60 + tp.seconds

/-- Track record fields that updateEndTimeBadge reads. -/
structure Performance where
  id : ℕ
  isOver : Bool
  startOffset : Option TimePair
  endTime : Option TimePair
  duration : ℚ
deriving DecidableEq

/-- Live playback snapshot of the currently playing card, as
PerformanceList.getCurrentPlaybackInfo returns it. -/
structure PlaybackInfo where
  id : ℕ
  remaining : ℚ
deriving DecidableEq

/-- Seconds one pending performance adds to the total in updateEndTimeBadge:
25 fixed, plus the live remaining when it is the currently playing one,
else `endTime - startOffset` when an end time is set, else
`duration - startOffset` when a duration is known, else nothing. -/
def perfContribution (playbackInfo : Option PlaybackInfo) (perf : Performance) : ℚ :=
  let startOffset := timePairSeconds perf.startOffset
  let endTimeSeconds := timePairSeconds perf.endTime
  let effectiveDuration :=
    if 0 < endTimeSeconds then endTimeSeconds - startOffset
    else if 0 < perf.duration then perf.duration - startOffset
    else 0
  match playbackInfo with
  | some info => 25 + (if info.id = perf.id then info.remaining else effectiveDuration)
  | none => 25 + effectiveDuration

/-- Total seconds computed by updateEndTimeBadge of app.js over the
performances not marked over. -/
def updateEndTimeBadgeTotal (playbackInfo : Option PlaybackInfo)
    (performances : List Performance) : ℚ :=
  ((performances.filter (fun p => p.isOver = false)).map
    (perfContribution playbackInfo)).sum

/-- Contribution of one pending performance as claim C7 words it: the fixed
overhead plus, for a non-active track, `(endTime or storedDuration) -
startOffset` floored at 0. -/
def perfContributionFloored (playbackInfo : Option PlaybackInfo) (perf : Performance) : ℚ :=
  let startOffset := timePairSeconds perf.startOffset
  let endTimeSeconds := timePairSeconds perf.endTime
  let effectiveDuration :=
    if 0 < endTimeSeconds then endTimeSeconds - startOffset
    else if 0 < perf.duration then perf.duration - startOffset
    else 0
  match playbackInfo with
  | some info => 25 + (if info.id = perf.id then info.remaining else max 0 effectiveDuration)
  | none => 25 + max 0 effectiveDuration

/-- Aggregate remaining-time total as claim C7 words it (with the floor). -/
def aggregateRemainingFloored (playbackInfo : Option PlaybackInfo)
    (performances : List Performance) : ℚ :=
  ((performances.filter (fun p => p.isOver = false)).map
    (perfContributionFloored playbackInfo)).sum

end Scene

namespace Scene

/-- Characterization of calculateFadeOutDelay as one closed formula. -/
theorem calculateFadeOutDelay_eq (t e o : ℚ) :
    calculateFadeOutDelay t e o =
      if e ≤ 0 ∨ e ≤ o then none else some (max 0 ((e - 1/2 - t) * 1000)) := by
  unfold calculateFadeOutDelay fadeOutDuration
  rcases le_or_lt e 0 with h1 | h1
  · simp [h1]
  · rcases le_or_lt e o with h2 | h2
    · simp [h1.not_le, h2]
    · have hne : ¬ (e ≤ 0 ∨ e ≤ o) := by push_neg; exact ⟨h1, h2⟩
      simp only [if_neg h1.not_le, if_neg h2.not_le, if_neg hne]
      rcases le_or_lt ((e - 1/2 - t) * 1000) 0 with h3 | h3
      · rw [if_pos h3, max_eq_left h3]
      · rw [if_neg h3.not_le, max_eq_right h3.le]

/-- C1: the fade-out delay computation is the pure function claimed: it is
disabled (none) exactly when the cutoff e is ≤ 0 or ≤ the start offset, and
otherwise yields (e - 0.5 - t) * 1000 milliseconds with any non-positive
delay treated as 0; in particular (t=10, e=20, o=0) gives 9500 ms,
(t=19.8, e=20, o=0) gives 0, and (t=10, e=0, o=0) is disabled. -/
theorem C1_calculateFadeOutDelay_spec :
    (∀ t e o : ℚ, calculateFadeOutDelay t e o =
      if e ≤ 0 ∨ e ≤ o then none else some (max 0 ((e - 1/2 - t) * 1000))) ∧
    calculateFadeOutDelay 10 20 0 = some 9500 ∧
    calculateFadeOutDelay (99/5) 20 0 = some 0 ∧
    calculateFadeOutDelay 10 0 0 = none := by
  refine ⟨calculateFadeOutDelay_eq, by norm_num [calculateFadeOutDelay, fadeOutDuration],
    by norm_num [calculateFadeOutDelay, fadeOutDuration],
    by norm_num [calculateFadeOutDelay, fadeOutDuration]⟩

/-- C4: the effective current time reported while playing compensates for the
seek race: while the media clock reads less than the start offset the offset
is reported, and from the offset on the clock value is reported; in
particular (clock=0, offset=90, playing) gives 90 and (clock=105, offset=90,
playing) gives 105. -/
theorem C4_getEffectiveCurrentTime_spec :
    (∀ a o : ℚ, a < o → getEffectiveCurrentTime a o true = o) ∧
    (∀ a o : ℚ, o ≤ a → getEffectiveCurrentTime a o true = a) ∧
    getEffectiveCurrentTime 0 90 true = 90 ∧
    getEffectiveCurrentTime 105 90 true = 105 := by
  refine ⟨fun a o h => ?_, fun a o h => ?_, by norm_num [getEffectiveCurrentTime],
    by norm_num [getEffectiveCurrentTime]⟩
  · simp [getEffectiveCurrentTime, h]
  · simp [getEffectiveCurrentTime, h.not_lt]

/-- C6 counterexample: at achieved position 95 for requested offset 90 the
achieved position differs from the requested offset by 5 > 0.5, yet the
verification issues no corrective re-seek, so a correction is not issued
whenever the positions differ by more than 0.5 s. -/
theorem C6_counterexample :
    verifyAndCorrect 95 90 = SeekVerdict.ok ∧ (1/2 : ℚ) < |(95 : ℚ) - 90| := by
  constructor
  · norm_num [verifyAndCorrect]
  · norm_num

/-- C6 amended: a fresh play with positive offset seeks, plays, then verifies
the achieved position, and the verification issues a corrective re-seek if
and only if the achieved position is more than 0.5 s below the requested
offset; positions at or above (requested - 0.5) trigger no correction. -/
theorem C6_seek_verification_amended :
    (∀ o : ℚ, 0 < o → simulatePlayWithOffset o =
      [PlayOp.setCurrentTime, PlayOp.play, PlayOp.verifyPosition, PlayOp.fadeIn]) ∧
    simulatePlayWithOffset 90 =
      [PlayOp.setCurrentTime, PlayOp.play, PlayOp.verifyPosition, PlayOp.fadeIn] ∧
    (∀ a e : ℚ, verifyAndCorrect a e = SeekVerdict.reseek ↔ a < e - 1/2) ∧
    verifyAndCorrect 0 90 = SeekVerdict.reseek ∧
    verifyAndCorrect (448/5) 90 = SeekVerdict.ok := by
  refine ⟨fun o h => ?_, by norm_num [simulatePlayWithOffset], fun a e => ?_,
    by norm_num [verifyAndCorrect], by norm_num [verifyAndCorrect]⟩
  · simp [simulatePlayWithOffset, h]
  · unfold verifyAndCorrect
    rcases lt_or_le a (e - 1/2) with h | h
    · rw [if_pos h]
      exact iff_of_true rfl h
    · rw [if_neg h.not_lt]
      exact iff_of_false (fun hc => SeekVerdict.noConfusion hc) h.not_lt

/-- With a valid cutoff the schedule is the immediate stop when the delay is
non-positive, else the ramp from e - fadeOutDuration to e. -/
theorem scheduleFadeOut_valid (t e o : ℚ) (he : 0 < e) (heo : o < e) :
    scheduleFadeOut t e o =
      if (e - fadeOutDuration - t) * 1000 ≤ 0 then some ⟨t, t⟩
      else some ⟨e - fadeOutDuration, e⟩ := by
  have hne : ¬ (e ≤ 0 ∨ e ≤ o) := by push_neg; exact ⟨he, heo⟩
  unfold scheduleFadeOut fadeOutDuration
  rw [calculateFadeOutDelay_eq, if_neg hne]
  rcases le_or_lt ((e - 1/2 - t) * 1000) 0 with h | h
  · rw [if_pos h]
    rw [max_eq_left h]
    norm_num
  · rw [if_neg h.not_le]
    rw [max_eq_right h.le]
    simp only [h.not_le, if_false, ite_false, if_neg]
    refine congrArg some ?_
    rw [FadeSchedule.mk.injEq]
    constructor
    · ring
    · ring

/-- C2: a play with a valid cutoff (0 < e and offset < e) on a loaded engine
schedules the fade-out so that with a positive delay the gain ramp 1 to 0
starts at e - fadeOutDuration (= e - 0.5) and playback stops at e, with a
non-positive delay playback stops immediately at the current position, and
in either case the stop position never exceeds the cutoff (or the position
already reached); concretely, play(offset 10, cutoff 20) ramps from 19.5
and stops at 20, and play(offset 19.8, cutoff 20) stops at once. -/
theorem C2_playWithCutoff_fade_schedule :
    (∀ (s : AudioPlayerState) (elem : MediaElement) (o e : ℚ),
      s.audioElement = some elem → 0 < e → o < e →
      (playWithCutoff s o e).1.isPlaying = true ∧
      (0 < (e - fadeOutDuration - o) * 1000 →
        (playWithCutoff s o e).2 = some ⟨e - fadeOutDuration, e⟩) ∧
      ((e - fadeOutDuration - o) * 1000 ≤ 0 →
        (playWithCutoff s o e).2 = some ⟨o, o⟩) ∧
      (∀ sched, (playWithCutoff s o e).2 = some sched →
        sched.stopSeconds ≤ max o e ∧
        sched.stopSeconds - sched.fadeStartSeconds ≤ fadeOutDuration)) ∧
    (playWithCutoff sampleStoppedState 10 20).2 = some ⟨39/2, 20⟩ ∧
    (playWithCutoff sampleStoppedState (99/5) 20).2 = some ⟨99/5, 99/5⟩ := by
  refine ⟨?_, ?_, ?_⟩
  · intro s elem o e helem he heo
    have hsched : (playWithCutoff s o e).2 = scheduleFadeOut o e o := by
      simp [playWithCutoff, helem]
    have hplay : (playWithCutoff s o e).1.isPlaying = true := by
      simp [playWithCutoff, helem]
    have hval := scheduleFadeOut_valid o e o he heo
    refine ⟨hplay, ?_, ?_, ?_⟩
    · intro hpos
      rw [hsched, hval, if_neg hpos.not_le]
    · intro hnp
      rw [hsched, hval, if_pos hnp]
    · intro sched hs
      rw [hsched, hval] at hs
      rcases le_or_lt ((e - fadeOutDuration - o) * 1000) 0 with h | h
      · rw [if_pos h] at hs
        cases hs
        constructor
        · exact le_max_left o e
        · simp [fadeOutDuration]
      · rw [if_neg h.not_le] at hs
        cases hs
        constructor
        · exact le_max_of_le_right le_rfl
        · simp [fadeOutDuration]
  · norm_num [playWithCutoff, sampleStoppedState, scheduleFadeOut,
      calculateFadeOutDelay, fadeOutDuration]
  · norm_num [playWithCutoff, sampleStoppedState, scheduleFadeOut,
      calculateFadeOutDelay, fadeOutDuration]

/-- C5 counterexample: play() on the never-loaded engine state returns
silently, with the state unchanged and no PlaybackError raised or reported,
so the claimed reported failure does not happen. -/
theorem C5_counterexample :
    play idleState 0 = (idleState, none) ∧
    (play idleState 0).2 ≠ some PlayError.playbackError := by
  refine ⟨rfl, ?_⟩
  intro h
  simp [play, idleState] at h

/-- C5 amended: a play() on an engine whose resource was never loaded (no
media element attached) is a silent no-op: it raises no error and leaves the
engine state unchanged. -/
theorem C5_play_unloaded_silent_noop :
    (∀ (s : AudioPlayerState) (o : ℚ), s.audioElement = none → play s o = (s, none)) ∧
    play idleState (99/2) = (idleState, none) := by
  refine ⟨fun s o h => ?_, rfl⟩
  unfold play
  rw [h]

/-- C8: after a completed stop() on an engine with a loaded resource the
clock position reads 0, the gain is reset to 1, the cutoff association and
the pending timer are cleared, and the engine is neither playing nor
paused. -/
theorem C8_stop_resets :
    (∀ (s : AudioPlayerState) (elem : MediaElement) (imm : Bool),
      s.audioElement = some elem →
      getCurrentTime (stop s imm).1 = 0 ∧ (stop s imm).1.gain = 1 ∧
      (stop s imm).1.endTimeSeconds = 0 ∧ (stop s imm).1.fadeOutTimer = none ∧
      (stop s imm).1.isPlaying = false ∧ (stop s imm).1.isPaused = false) ∧
    (stop samplePlayingState false).1 =
      { audioElement := some { currentTime := 0, duration := JSNum.num 120 },
        isPlaying := false, isPaused := false, startOffset := 10, gain := 1,
        endTimeSeconds := 0, fadeOutTimer := none } := by
  constructor
  · intro s elem imm h
    cases hft : s.fadeOutTimer <;>
      simp [stop, cancelFadeTimer, getCurrentTime, h, hft]
  · rfl

/-- C9: pause() while already Paused and stop() while already Stopped are
no-ops: the state is returned unchanged, no error is possible, and no
timer-cancellation effect is emitted. -/
theorem C9_pause_stop_idempotent :
    (∀ s : AudioPlayerState, isPausedState s → pause s = (s, [])) ∧
    (∀ (s : AudioPlayerState) (imm : Bool), isStoppedState s → stop s imm = (s, [])) ∧
    pause samplePausedState = (samplePausedState, []) ∧
    stop sampleStoppedState true = (sampleStoppedState, []) := by
  refine ⟨?_, ?_, rfl, rfl⟩
  · rintro s ⟨hp, hpl, hel⟩
    obtain ⟨elem, helem⟩ := Option.isSome_iff_exists.mp hel
    simp [pause, helem, hpl]
  · rintro s imm ⟨h1, h2, h3, h4, h5, h6⟩
    obtain ⟨elem, helem, hct⟩ :
        ∃ elem, s.audioElement = some elem ∧ elem.currentTime = 0 := by
      cases ha : s.audioElement with
      | none => rw [ha] at h6; simp at h6
      | some elem =>
        rw [ha] at h6
        refine ⟨elem, rfl, ?_⟩
        simpa using h6
    have helemeq : ({ elem with currentTime := 0 } : MediaElement) = elem := by
      cases elem with
      | mk ct d =>
        simp only at hct
        rw [hct]
    cases s with
    | mk ae ip ipd so g ets ft =>
      simp only at h1 h2 h3 h4 h5 helem
      subst h1 h2 h3 h4 h5 helem
      simp [stop, cancelFadeTimer, helemeq]

/-- C10: getCurrentTime and getDuration are total: with no media element
attached (before any load, after destroy) both return 0, and getDuration
returns 0 rather than NaN while the media duration is not yet known. -/
theorem C10_getters_total :
    (∀ s : AudioPlayerState, s.audioElement = none →
      getCurrentTime s = 0 ∧ getDuration s = 0) ∧
    (∀ (s : AudioPlayerState) (elem : MediaElement), s.audioElement = some elem →
      elem.duration = JSNum.nan → getDuration s = 0) ∧
    getCurrentTime idleState = 0 ∧ getDuration idleState = 0 ∧
    getDuration { idleState with
      audioElement := some { currentTime := 5, duration := JSNum.nan } } = 0 := by
  refine ⟨fun s h => ?_, fun s elem h hd => ?_, rfl, rfl, rfl⟩
  · simp [getCurrentTime, getDuration, h]
  · simp [getDuration, h, hd, JSNum.orZero]

/-- One coordinator notification preserves the at-most-one-playing
invariant. -/
theorem atMostOnePlaying_step {n : ℕ} (s : ListState n) (e : PlayEvent n)
    (h : atMostOnePlaying s) : atMostOnePlaying (handlePlayStateChange s e) := by
  cases e with
  | playStarted id =>
    intro i j hi hj
    simp only [handlePlayStateChange, decide_eq_true_eq] at hi hj
    rw [hi, hj]
  | playStopped id =>
    intro i j hi hj
    simp only [handlePlayStateChange] at hi hj
    rw [Function.update_apply] at hi hj
    split_ifs at hi hj
    exact h i j hi hj
  | paused id =>
    intro i j hi hj
    simp only [handlePlayStateChange] at hi hj
    rw [Function.update_apply] at hi hj
    split_ifs at hi hj
    exact h i j hi hj

/-- The invariant holds along every notification sequence from a state that
satisfies it. -/
theorem atMostOnePlaying_runEvents {n : ℕ} (es : List (PlayEvent n))
    (s : ListState n) (h : atMostOnePlaying s) :
    atMostOnePlaying (runEvents s es) := by
  induction es generalizing s with
  | nil => exact h
  | cons e es ih => exact ih _ (atMostOnePlaying_step s e h)

/-- C3: under one PerformanceList, any sequence of play/pause/stop
notifications from the initial state leaves at most one card playing; a
start notification stops every other card and records the notifying id as
currently playing; and a stop notification leaves the currently-playing id
unchanged unless it equals the notifying card's id.  Concretely, after
starting card 0, starting card 1 and then receiving card 0's (stale) stop,
only card 1 plays and it is still the recorded id. -/
theorem C3_coordinator_at_most_one_playing :
    (∀ (n : ℕ) (es : List (PlayEvent n)),
      atMostOnePlaying (runEvents (initListState n) es)) ∧
    (∀ (n : ℕ) (s : ListState n) (id j : Fin n), j ≠ id →
      (handlePlayStateChange s (PlayEvent.playStarted id)).playing j = false ∧
      (handlePlayStateChange s (PlayEvent.playStarted id)).currentlyPlayingId = some id) ∧
    (∀ (n : ℕ) (s : ListState n) (id : Fin n), s.currentlyPlayingId ≠ some id →
      (handlePlayStateChange s (PlayEvent.playStopped id)).currentlyPlayingId =
        s.currentlyPlayingId) ∧
    (runEvents (initListState 3)
        [PlayEvent.playStarted 0, PlayEvent.playStarted 1,
         PlayEvent.playStopped 0]).currentlyPlayingId = some 1 ∧
    (runEvents (initListState 3)
        [PlayEvent.playStarted 0, PlayEvent.playStarted 1,
         PlayEvent.playStopped 0]).playing 0 = false ∧
    atMostOnePlaying (runEvents (initListState 3)
        [PlayEvent.playStarted 0, PlayEvent.playStarted 1,
         PlayEvent.playStopped 0]) := by
  refine ⟨?_, ?_, ?_, by decide, by decide, by decide⟩
  · intro n es
    refine atMostOnePlaying_runEvents es _ ?_
    intro i j hi _
    simp [initListState] at hi
  · intro n s id j hj
    constructor
    · simp [handlePlayStateChange, hj]
    · rfl
  · intro n s id h
    simp [handlePlayStateChange, h]

/-- C7 counterexample: a pending non-active track whose start offset (100 s)
exceeds its stored duration (5 s) contributes 25 + (5 - 100) = -70 to the
code's total, not the floored 25 + 0 the claim states, so the aggregate and
its floored description disagree. -/
theorem C7_counterexample :
    updateEndTimeBadgeTotal none
        [{ id := 7, isOver := false,
           startOffset := some { minutes := 1, seconds := 40 },
           endTime := none, duration := 5 }] = -70 ∧
    aggregateRemainingFloored none
        [{ id := 7, isOver := false,
           startOffset := some { minutes := 1, seconds := 40 },
           endTime := none, duration := 5 }] = 25 ∧
    updateEndTimeBadgeTotal none
        [{ id := 7, isOver := false,
           startOffset := some { minutes := 1, seconds := 40 },
           endTime := none, duration := 5 }] ≠
      aggregateRemainingFloored none
        [{ id := 7, isOver := false,
           startOffset := some { minutes := 1, seconds := 40 },
           endTime := none, duration := 5 }] := by
  refine ⟨?_, ?_, ?_⟩ <;>
    norm_num [updateEndTimeBadgeTotal, aggregateRemainingFloored,
      perfContribution, perfContributionFloored, timePairSeconds]

/-- C7 amended: the aggregated total ranges over exactly the tracks not
marked done; each such track adds the fixed 25 s overhead plus its
effective remaining duration, where the currently playing track adds its
live remaining value and every other track adds (endTime if set, else
stored duration if known, else 0) minus startOffset, with no flooring at 0
(the contribution can be negative when the offset exceeds the effective
end). -/
theorem C7_updateEndTimeBadgeTotal_amended :
    (∀ (pi : Option PlaybackInfo) (ps : List Performance) (p : Performance),
      p.isOver = true →
      updateEndTimeBadgeTotal pi (p :: ps) = updateEndTimeBadgeTotal pi ps) ∧
    (∀ (pi : Option PlaybackInfo) (ps : List Performance) (p : Performance),
      p.isOver = false →
      updateEndTimeBadgeTotal pi (p :: ps) =
        perfContribution pi p + updateEndTimeBadgeTotal pi ps) ∧
    (∀ (info : PlaybackInfo) (p : Performance), info.id = p.id →
      perfContribution (some info) p = 25 + info.remaining) ∧
    (∀ (info : PlaybackInfo) (p : Performance), info.id ≠ p.id →
      perfContribution (some info) p = 25 +
        (if 0 < timePairSeconds p.endTime then
          timePairSeconds p.endTime - timePairSeconds p.startOffset
         else if 0 < p.duration then p.duration - timePairSeconds p.startOffset
         else 0)) ∧
    (∀ p : Performance, perfContribution none p = 25 +
        (if 0 < timePairSeconds p.endTime then
          timePairSeconds p.endTime - timePairSeconds p.startOffset
         else if 0 < p.duration then p.duration - timePairSeconds p.startOffset
         else 0)) ∧
    updateEndTimeBadgeTotal (some { id := 3, remaining := 7 })
        [{ id := 3, isOver := false, startOffset := none,
           endTime := some { minutes := 0, seconds := 20 }, duration := 120 },
         { id := 4, isOver := true, startOffset := none,
           endTime := none, duration := 60 },
         { id := 5, isOver := false,
           startOffset := some { minutes := 0, seconds := 10 },
           endTime := none, duration := 60 }] = (25 + 7) + (25 + 50) := by
  refine ⟨?_, ?_, ?_, ?_, ?_, ?_⟩
  · intro pi ps p h
    simp [updateEndTimeBadgeTotal, h]
  · intro pi ps p h
    simp [updateEndTimeBadgeTotal, h]
  · intro info p h
    simp [perfContribution, h]
  · intro info p h
    simp [perfContribution, h]
  · intro p
    simp [perfContribution]
  · norm_num [updateEndTimeBadgeTotal, perfContribution, timePairSeconds]

end Scene
